import Mathlib

/-!
Shallow embedding of the model-serving resolution, cache, reload and predict
control path of `src/app/api.py` (Credit Fraud API).

External effects (MLflow registry loads, version lookups, the local joblib
artifact, the scoring call and the database sink) are modelled by an oracle
(`World`, `PredictWorld`) whose fields give the outcome of each external call
the handler may make.  The mutable process globals `_model` / `_model_info`
are the explicit state `LMState`.  A Python exception that escapes a handler
is an `Except.error`; state mutations performed before the raise are kept,
exactly as with Python globals.
-/

namespace CreditFraud

/-- A loaded predictor object (mlflow / joblib model); only its identity
matters to the control path, scoring outcomes live in the oracle. -/
structure Predictor where
  pid : Nat
deriving DecidableEq, Repr

/-- The `_model_info["errors"]` dict: insertion-ordered key/value pairs. -/
abbrev ErrMap := List (String × Option String)

/-- Python dict assignment `d[k] = v`: update the existing key in place,
append if absent. -/
def setKey (k : String) (v : Option String) : ErrMap → ErrMap
  | [] => [(k, v)]
  | (k', v') :: rest => if k' = k then (k, v) :: rest else (k', v') :: setKey k v rest

/-- The `_model_info` global (api.py lines 27-37).  `aliasF`/`stageF` are the
`"alias"` / `"stage"` entries of the dict. -/
structure ModelInfo where
  source : Option String
  name : Option String
  aliasF : Option String
  stageF : Option String
  version : Option String
  errors : ErrMap
deriving DecidableEq, Repr

/-- `_model_info` as initialised at process start and reset by `/reload`. -/
def initInfo : ModelInfo :=
  { source := none, name := none, aliasF := none, stageF := none, version := none
    errors := [("alias", none), ("stage", none)] }

/-- The mutable globals `_model` and `_model_info`. -/
structure LMState where
  model : Option Predictor
  info : ModelInfo
deriving DecidableEq, Repr

def initState : LMState := { model := none, info := initInfo }

/-- Environment configuration (api.py lines 22-25); a Python-falsy value is
the empty string. -/
structure Config where
  MODEL_PATH : String
  MODEL_NAME : String
  MODEL_ALIAS : String
  MODEL_STAGE : String
deriving DecidableEq, Repr

/-- A resolution source actually attempted (a registry / artifact load call). -/
inductive ResolutionSource where
  | byAlias | byStage | byLocal
deriving DecidableEq, Repr

/-- Oracle for the external calls one `load_model` run may make. -/
structure World where
  aliasLoad : Except String Predictor
  aliasVersion : Except Unit String
  stageLoad : Except String Predictor
  stageVersion : Except Unit (Option String)
  localExists : Bool
  localLoad : Except String Predictor
deriving Repr

/-- Outcome of one `load_model` call: the returned value (or escaped
exception), the globals afterwards, the trace of load attempts, and whether
the resolution chain ran at all (`false` on a cache hit). -/
structure LMResult where
  result : Except String (Option Predictor)
  state : LMState
  attempts : List ResolutionSource
  resolved : Bool
deriving Repr

/-- `_model_info["errors"][k] = str(e)`. -/
def setErr (info : ModelInfo) (k : String) (e : String) : ModelInfo :=
  { info with errors := setKey k (some e) info.errors }

/-- The second `try` of `load_model` (api.py lines 76-107): the stage lookup,
whose `except` clause also holds the local-file fallback.  `tr` is the trace
of attempts made so far. -/
def stagePhase (cfg : Config) (w : World) (s : LMState) (tr : List ResolutionSource) : LMResult :=
  if cfg.MODEL_STAGE = "" then
    -- `if MODEL_STAGE:` is false: the try body does nothing, no exception is
    -- raised, control falls off the end of the function: implicit `return None`.
    ⟨.ok none, s, tr, true⟩
  else
    match w.stageLoad with
    | .ok m =>
      ⟨.ok (some m),
       { model := some m
         info :=
           match w.stageVersion with
           | .ok v =>
             { s.info with source := some "stage", name := some cfg.MODEL_NAME,
                           aliasF := none, stageF := some cfg.MODEL_STAGE, version := v }
           | .error _ =>
             { s.info with source := some "stage", name := some cfg.MODEL_NAME,
                           stageF := some cfg.MODEL_STAGE } },
       tr ++ [ResolutionSource.byStage], true⟩
    | .error e =>
      -- `except Exception as e:` for the stage lookup; the local-file
      -- fallback lives inside this handler.
      if w.localExists then
        match w.localLoad with
        | .ok m =>
          ⟨.ok (some m),
           { model := some m
             info := { (setErr s.info "stage" e) with
                       source := some "local", name := none, aliasF := none,
                       stageF := none, version := none } },
           tr ++ [ResolutionSource.byStage, ResolutionSource.byLocal], true⟩
        | .error e2 =>
          -- joblib.load raised: the exception escapes load_model.
          ⟨.error e2, { s with info := setErr s.info "stage" e },
           tr ++ [ResolutionSource.byStage, ResolutionSource.byLocal], true⟩
      else
        ⟨.ok none, { s with info := setErr s.info "stage" e },
         tr ++ [ResolutionSource.byStage], true⟩

/-- `load_model` (api.py lines 51-107). -/
def loadModel (cfg : Config) (w : World) (s : LMState) : LMResult :=
  match s.model with
  | some m => ⟨.ok (some m), s, [], false⟩
  | none =>
    if cfg.MODEL_ALIAS = "" then
      -- `if MODEL_ALIAS:` false, first try body does nothing; fall through.
      stagePhase cfg w s []
    else
      match w.aliasLoad with
      | .ok m =>
        ⟨.ok (some m),
         { model := some m
           info :=
             match w.aliasVersion with
             | .ok v =>
               { s.info with source := some "alias", name := some cfg.MODEL_NAME,
                             aliasF := some cfg.MODEL_ALIAS, stageF := none,
                             version := some v }
             | .error _ =>
               { s.info with source := some "alias", name := some cfg.MODEL_NAME,
                             aliasF := some cfg.MODEL_ALIAS } },
         [ResolutionSource.byAlias], true⟩
      | .error e =>
        stagePhase cfg w { s with info := setErr s.info "alias" e }
          [ResolutionSource.byAlias]

/-- Response of the `/reload` endpoint: the 200 success body's `model` object,
or a failure body `{status:"error", message, model_info}` with its HTTP code. -/
inductive ReloadResponse where
  | success (name aliasF stageF version source : Option String)
  | failure (statusCode : Nat) (message : String) (info : ModelInfo)
deriving Repr

/-- Outcome of one `/reload` call.  `resolveCount` counts the fresh (non
cache-hit) resolution chain runs performed during the call. -/
structure ReloadResult where
  response : ReloadResponse
  state : LMState
  resolveCount : Nat
deriving Repr

/-- `reload_model` (api.py lines 133-176): reset `_model` / `_model_info`,
then call `load_model` once inside a try. -/
def reloadModel (cfg : Config) (w : World) (_s : LMState) : ReloadResult :=
  -- the cleared globals are exactly `initState`
  match (loadModel cfg w initState).result with
  | .error e =>
    ⟨.failure 500 e (loadModel cfg w initState).state.info,
     (loadModel cfg w initState).state,
     if (loadModel cfg w initState).resolved then 1 else 0⟩
  | .ok none =>
    ⟨.failure 503 "Failed to load model" (loadModel cfg w initState).state.info,
     (loadModel cfg w initState).state,
     if (loadModel cfg w initState).resolved then 1 else 0⟩
  | .ok (some _) =>
    ⟨.success (loadModel cfg w initState).state.info.name
       (loadModel cfg w initState).state.info.aliasF
       (loadModel cfg w initState).state.info.stageF
       (loadModel cfg w initState).state.info.version
       (loadModel cfg w initState).state.info.source,
     (loadModel cfg w initState).state,
     if (loadModel cfg w initState).resolved then 1 else 0⟩

/-- A `/predict` request body: flat mapping feature name → value. -/
abbrev Payload := List (String × ℚ)

/-- The row appended to the prediction log on the success path. -/
structure PredictionRecord where
  features : Payload
  fraudProbability : ℚ
  prediction : Nat
  modelVersion : Option String
  modelName : Option String
deriving DecidableEq, Repr

/-- Oracle for one `/predict` call: the `load_model` oracle, the outcome of
`model.predict_proba` on this payload (an error covers any exception of the
DataFrame construction / scoring block), and the database sink. -/
structure PredictWorld where
  lw : World
  score : Except String ℚ
  dbEnabled : Bool
  dbFails : Bool
deriving Repr

/-- The three response shapes `/predict` itself returns:
200 `{fraud_probability, prediction, model_version}`,
400 `{error: message}`, 503 `{error: "model not available"}`. -/
inductive PredictResponse where
  | ok (fraudProbability : ℚ) (prediction : Nat) (modelVersion : Option String)
  | badInput (message : String)
  | unavailable
deriving DecidableEq, Repr

/-- HTTP status of a predict response. -/
def statusOf : PredictResponse → Nat
  | .ok _ _ _ => 200
  | .badInput _ => 400
  | .unavailable => 503

/-- Outcome of one `/predict` call.  `result` is the returned response or the
escaped exception; `counts` lists the `REQUEST_COUNT.labels(...).inc()` events
(method, endpoint, http_status); `observations` the latency-histogram
observations by endpoint label (the `with REQUEST_LATENCY ... time()` block
records once even when an exception escapes it); `logged` the prediction
records committed to the database. -/
structure PredictResult where
  result : Except String PredictResponse
  state : LMState
  counts : List (String × String × Nat)
  observations : List String
  logged : List PredictionRecord
deriving Repr

/-- `predict` (api.py lines 177-223). -/
def predict (cfg : Config) (w : PredictWorld) (payload : Payload) (s : LMState) :
    PredictResult :=
  match (loadModel cfg w.lw s).result with
  | .error e =>
    -- load_model raised (joblib.load failure): escapes the handler;
    -- the latency timer still observes on context-manager exit.
    ⟨.error e, (loadModel cfg w.lw s).state, [], ["/predict"], []⟩
  | .ok none =>
    ⟨.ok .unavailable, (loadModel cfg w.lw s).state,
     [("POST", "/predict", 503)], ["/predict"], []⟩
  | .ok (some _) =>
    match w.score with
    | .error e =>
      ⟨.ok (.badInput e), (loadModel cfg w.lw s).state,
       [("POST", "/predict", 400)], ["/predict"], []⟩
    | .ok proba =>
      ⟨.ok (.ok proba (if (1 : ℚ)/2 ≤ proba then 1 else 0)
          (loadModel cfg w.lw s).state.info.version),
       (loadModel cfg w.lw s).state,
       [("POST", "/predict", 200)], ["/predict"],
       -- best-effort database append: discarded when the sink fails
       if w.dbEnabled && !w.dbFails then
         [{ features := payload, fraudProbability := proba
            prediction := if (1 : ℚ)/2 ≤ proba then 1 else 0
            modelVersion := (loadModel cfg w.lw s).state.info.version
            modelName := (loadModel cfg w.lw s).state.info.name }]
       else []⟩

/-- States of the globals reachable from process start through any sequence
of `load_model`, `/reload` and `/predict` calls under arbitrary oracles. -/
inductive Reachable (cfg : Config) : LMState → Prop where
  | init : Reachable cfg initState
  | loadStep (w : World) {s : LMState} :
      Reachable cfg s → Reachable cfg (loadModel cfg w s).state
  | reloadStep (w : World) {s : LMState} :
      Reachable cfg s → Reachable cfg (reloadModel cfg w s).state
  | predictStep (w : PredictWorld) (p : Payload) {s : LMState} :
      Reachable cfg s → Reachable cfg (predict cfg w p s).state

/-- The no-partial-binding invariant: the binding source is one of the four
legal values, and a predictor is cached exactly when the source is set. -/
def GoodState (s : LMState) : Prop :=
  (s.model = none ↔ s.info.source = none) ∧
  (s.info.source = none ∨ s.info.source = some "alias" ∨
   s.info.source = some "stage" ∨ s.info.source = some "local")

/-- The errors dict has exactly the keys `"alias"` and `"stage"`, in order. -/
def KeysOk (s : LMState) : Prop :=
  s.info.errors.map Prod.fst = ["alias", "stage"]

/-- Relation between a `load_model` return value and the cached model: the
call returns exactly the cached model, or an exception escaped and the cache
is empty. -/
def ResultStateOk (r : LMResult) : Prop :=
  r.result = .ok r.state.model ∨ (∃ e, r.result = .error e ∧ r.state.model = none)

/-- Default configuration: the environment defaults of api.py lines 22-25. -/
def cfgD : Config :=
  { MODEL_PATH := "models/latest.joblib", MODEL_NAME := "credit-fraud",
    MODEL_ALIAS := "production", MODEL_STAGE := "Production" }

/-- Configuration with the stage pointer unset. -/
def cfgNoStage : Config :=
  { MODEL_PATH := "models/latest.joblib", MODEL_NAME := "credit-fraud",
    MODEL_ALIAS := "production", MODEL_STAGE := "" }

/-- Oracle where every external call succeeds. -/
def wAliasOk : World :=
  { aliasLoad := .ok ⟨1⟩, aliasVersion := .ok "7", stageLoad := .ok ⟨2⟩,
    stageVersion := .ok (some "5"), localExists := true, localLoad := .ok ⟨3⟩ }

/-- Oracle where the registry is down and the local artifact is absent. -/
def wAllFail : World :=
  { aliasLoad := .error "alias down", aliasVersion := .error (),
    stageLoad := .error "stage down", stageVersion := .error (),
    localExists := false, localLoad := .error "no file" }

/-- Oracle where the registry is down and the local artifact exists but its
load raises. -/
def wLocalCorrupt : World :=
  { aliasLoad := .error "alias down", aliasVersion := .error (),
    stageLoad := .error "stage down", stageVersion := .error (),
    localExists := true, localLoad := .error "corrupt artifact" }

/-- Oracle where alias and stage fail but the local artifact loads. -/
def wLocalOk : World :=
  { aliasLoad := .error "alias down", aliasVersion := .error (),
    stageLoad := .error "stage down", stageVersion := .error (),
    localExists := true, localLoad := .ok ⟨3⟩ }

/-- Oracle where the alias lookup fails but the stage lookup succeeds. -/
def wStageOk : World :=
  { aliasLoad := .error "alias down", aliasVersion := .error (),
    stageLoad := .ok ⟨2⟩, stageVersion := .ok (some "7"),
    localExists := true, localLoad := .ok ⟨3⟩ }

/-- Predict oracle: model loads by alias, scoring yields 3/4, database up. -/
def pwOk : PredictWorld :=
  { lw := wAliasOk, score := .ok (3/4 : ℚ), dbEnabled := true, dbFails := false }

/-- Predict oracle: every resolution source fails, local artifact absent. -/
def pwAllFail : PredictWorld :=
  { lw := wAllFail, score := .ok 0, dbEnabled := true, dbFails := false }

/-- Predict oracle: resolution reaches a local artifact whose load raises. -/
def pwCorrupt : PredictWorld :=
  { lw := wLocalCorrupt, score := .ok 0, dbEnabled := true, dbFails := false }

/-- Predict oracle: model loads but the payload cannot be scored. -/
def pwBad : PredictWorld :=
  { lw := wAliasOk, score := .error "missing features", dbEnabled := true,
    dbFails := false }

/- ## Helper lemmas -/

theorem setKey_keys (k : String) (v : Option String) (l : ErrMap)
    (h : k ∈ l.map Prod.fst) :
    (setKey k v l).map Prod.fst = l.map Prod.fst := by
  induction l with
  | nil => cases h
  | cons hd tl ih =>
    obtain ⟨k', v'⟩ := hd
    by_cases hk : k' = k
    · simp [setKey, hk]
    · simp only [List.map_cons, List.mem_cons] at h
      rcases h with h | h
      · exact absurd h.symm hk
      · simp [setKey, hk, ih h]

theorem loadModel_cache (cfg : Config) (w : World) (s : LMState) (m : Predictor)
    (h : s.model = some m) :
    loadModel cfg w s = ⟨.ok (some m), s, [], false⟩ := by
  obtain ⟨mo, info⟩ := s
  cases h
  rfl

theorem stagePhase_resultState (cfg : Config) (w : World) (s : LMState)
    (tr : List ResolutionSource) (hm : s.model = none) :
    ResultStateOk (stagePhase cfg w s tr) := by
  obtain ⟨al, av, sl, sv, le, ll⟩ := w
  by_cases hst : cfg.MODEL_STAGE = ""
  · simp [stagePhase, hst, ResultStateOk, hm]
  · cases sl with
    | ok m => simp [stagePhase, hst, ResultStateOk]
    | error e =>
      cases le with
      | false => simp [stagePhase, hst, ResultStateOk, hm]
      | true =>
        cases ll with
        | ok m => simp [stagePhase, hst, ResultStateOk]
        | error e2 => simp [stagePhase, hst, ResultStateOk, hm]

theorem loadModel_resultState (cfg : Config) (w : World) (s : LMState) :
    ResultStateOk (loadModel cfg w s) := by
  obtain ⟨mo, info⟩ := s
  cases mo with
  | some m => simp [loadModel, ResultStateOk]
  | none =>
    by_cases hal : cfg.MODEL_ALIAS = ""
    · simp only [loadModel, hal, if_true]
      exact stagePhase_resultState cfg w _ _ rfl
    · cases hld : w.aliasLoad with
      | ok m => simp [loadModel, hal, hld, ResultStateOk]
      | error e =>
        simp only [loadModel, hal, if_false, hld]
        exact stagePhase_resultState cfg w _ _ rfl

theorem loadModel_resolved (cfg : Config) (w : World) (s : LMState)
    (hm : s.model = none) :
    (loadModel cfg w s).resolved = true := by
  obtain ⟨mo, info⟩ := s
  cases hm
  by_cases hal : cfg.MODEL_ALIAS = ""
  · by_cases hst : cfg.MODEL_STAGE = ""
    · simp [loadModel, stagePhase, hal, hst]
    · obtain ⟨al, av, sl, sv, le, ll⟩ := w
      cases sl <;> cases le <;> cases ll <;>
        simp [loadModel, stagePhase, hal, hst]
  · obtain ⟨al, av, sl, sv, le, ll⟩ := w
    by_cases hst : cfg.MODEL_STAGE = "" <;>
      cases al <;> cases sl <;> cases le <;> cases ll <;>
        simp [loadModel, stagePhase, hal, hst]

theorem stagePhase_good (cfg : Config) (w : World) (s : LMState)
    (tr : List ResolutionSource) (hm : s.model = none)
    (hs : s.info.source = none) :
    GoodState (stagePhase cfg w s tr).state := by
  obtain ⟨al, av, sl, sv, le, ll⟩ := w
  by_cases hst : cfg.MODEL_STAGE = ""
  · simp [stagePhase, hst, GoodState, hm, hs]
  · cases sl with
    | ok m => cases sv <;> simp [stagePhase, hst, GoodState]
    | error e =>
      cases le with
      | false => simp [stagePhase, hst, GoodState, setErr, hm, hs]
      | true =>
        cases ll with
        | ok m => simp [stagePhase, hst, GoodState, setErr]
        | error e2 => simp [stagePhase, hst, GoodState, setErr, hm, hs]

theorem loadModel_good (cfg : Config) (w : World) (s : LMState)
    (h : GoodState s) :
    GoodState (loadModel cfg w s).state := by
  obtain ⟨mo, info⟩ := s
  cases mo with
  | some m => simpa [loadModel] using h
  | none =>
    have hs : info.source = none := by
      have := h.1.mp rfl
      simpa using this
    by_cases hal : cfg.MODEL_ALIAS = ""
    · simp only [loadModel, hal, if_true]
      exact stagePhase_good cfg w _ _ rfl hs
    · cases hld : w.aliasLoad with
      | ok m =>
        cases hv : w.aliasVersion <;> simp [loadModel, hal, hld, hv, GoodState]
      | error e =>
        simp only [loadModel, hal, if_false, hld]
        exact stagePhase_good cfg w _ _ rfl (by simpa [setErr] using hs)

theorem stagePhase_keys (cfg : Config) (w : World) (s : LMState)
    (tr : List ResolutionSource) (h : KeysOk s) :
    KeysOk (stagePhase cfg w s tr).state := by
  obtain ⟨al, av, sl, sv, le, ll⟩ := w
  have hmem : "stage" ∈ s.info.errors.map Prod.fst := by
    rw [h]; simp
  by_cases hst : cfg.MODEL_STAGE = ""
  · simpa [stagePhase, hst, KeysOk] using h
  · cases sl with
    | ok m =>
      cases sv <;> simpa [stagePhase, hst, KeysOk] using h
    | error e =>
      cases le with
      | false =>
        simpa [stagePhase, hst, KeysOk, setErr, setKey_keys _ _ _ hmem] using h
      | true =>
        cases ll with
        | ok m =>
          simpa [stagePhase, hst, KeysOk, setErr, setKey_keys _ _ _ hmem] using h
        | error e2 =>
          simpa [stagePhase, hst, KeysOk, setErr, setKey_keys _ _ _ hmem] using h

theorem loadModel_keys (cfg : Config) (w : World) (s : LMState)
    (h : KeysOk s) :
    KeysOk (loadModel cfg w s).state := by
  obtain ⟨mo, info⟩ := s
  cases mo with
  | some m => simpa [loadModel] using h
  | none =>
    have hmem : "alias" ∈ info.errors.map Prod.fst := by
      have h' : info.errors.map Prod.fst = ["alias", "stage"] := h
      rw [h']; simp
    by_cases hal : cfg.MODEL_ALIAS = ""
    · simp only [loadModel, hal, if_true]
      exact stagePhase_keys cfg w _ _ h
    · cases hld : w.aliasLoad with
      | ok m =>
        cases hv : w.aliasVersion <;> simpa [loadModel, hal, hld, hv, KeysOk] using h
      | error e =>
        simp only [loadModel, hal, if_false, hld]
        refine stagePhase_keys cfg w _ _ ?_
        have h' : info.errors.map Prod.fst = ["alias", "stage"] := h
        simpa [KeysOk, setErr, setKey_keys _ _ _ hmem] using h'

theorem predict_state (cfg : Config) (w : PredictWorld) (p : Payload)
    (s : LMState) :
    (predict cfg w p s).state = (loadModel cfg w.lw s).state := by
  unfold predict
  rcases (loadModel cfg w.lw s).result with e | om
  · rfl
  · rcases om with _ | m
    · rfl
    · rcases w.score with e | q <;> rfl

theorem reload_state (cfg : Config) (w : World) (s : LMState) :
    (reloadModel cfg w s).state = (loadModel cfg w initState).state := by
  unfold reloadModel
  rcases (loadModel cfg w initState).result with e | om
  · rfl
  · rcases om with _ | m <;> rfl

theorem reachable_inv (cfg : Config) (s : LMState) (h : Reachable cfg s) :
    GoodState s ∧ KeysOk s := by
  induction h with
  | init => exact ⟨by simp [GoodState, initState, initInfo], by simp [KeysOk, initState, initInfo]⟩
  | loadStep w _ ih =>
    exact ⟨loadModel_good cfg w _ ih.1, loadModel_keys cfg w _ ih.2⟩
  | reloadStep w _ ih =>
    rw [reload_state]
    constructor
    · exact loadModel_good cfg w _ (by simp [GoodState, initState, initInfo])
    · exact loadModel_keys cfg w _ (by simp [KeysOk, initState, initInfo])
  | predictStep w p _ ih =>
    rw [predict_state]
    exact ⟨loadModel_good cfg w.lw _ ih.1, loadModel_keys cfg w.lw _ ih.2⟩

/- ## Claim theorems -/

/-- Claim C1: the spec requires the resolver to attempt the local file
whenever every earlier source erred or was unset; in particular, with the
stage pointer empty, an alias error must lead directly to a local-file
attempt.  The code violates this: the local-file fallback lives inside the
stage lookup's exception handler, so with `MODEL_STAGE` empty and the alias
lookup failing, `load_model` returns `None` without ever attempting the
local artifact, even though it exists and would load. -/
theorem c1_local_fallback_skipped :
    (loadModel cfgNoStage wLocalOk initState).result = .ok none ∧
    (loadModel cfgNoStage wLocalOk initState).attempts = [ResolutionSource.byAlias] ∧
    (loadModel cfgNoStage wLocalOk initState).state.model = none :=
  ⟨rfl, rfl, rfl⟩

/-- Claim C2: in every state reachable by load_model, reload and predict
(under arbitrary oracles), the binding source is exactly one of alias, stage,
local or none, and the cached predictor is present iff the source is set —
there is never a partial binding. -/
theorem c2_no_partial_binding (cfg : Config) (s : LMState)
    (h : Reachable cfg s) :
    (s.model = none ↔ s.info.source = none) ∧
    (s.info.source = none ∨ s.info.source = some "alias" ∨
     s.info.source = some "stage" ∨ s.info.source = some "local") :=
  (reachable_inv cfg s h).1

/-- Witness for C2 at the state reached by a resolution that fell back to the
local artifact. -/
theorem c2_witness :
    ((loadModel cfgD wLocalOk initState).state.model = none ↔
      (loadModel cfgD wLocalOk initState).state.info.source = none) ∧
    ((loadModel cfgD wLocalOk initState).state.info.source = none ∨
     (loadModel cfgD wLocalOk initState).state.info.source = some "alias" ∨
     (loadModel cfgD wLocalOk initState).state.info.source = some "stage" ∨
     (loadModel cfgD wLocalOk initState).state.info.source = some "local") :=
  c2_no_partial_binding cfgD _ (Reachable.loadStep wLocalOk Reachable.init)

/-- Claim C8: once the cache holds a predictor, a further load_model call
returns that same predictor, changes nothing, performs no load attempt and
does not run the resolution chain — whatever the oracle of the second call. -/
theorem c8_idempotent_cache (cfg : Config) (w1 w2 : World) (s : LMState)
    (m : Predictor) (h : (loadModel cfg w1 s).result = .ok (some m)) :
    loadModel cfg w2 (loadModel cfg w1 s).state =
      ⟨.ok (some m), (loadModel cfg w1 s).state, [], false⟩ := by
  rcases loadModel_resultState cfg w1 s with hr | ⟨e, he, _⟩
  · have hm : (loadModel cfg w1 s).state.model = some m :=
      Except.ok.inj (hr.symm.trans h)
    exact loadModel_cache cfg w2 _ m hm
  · rw [h] at he
    exact absurd he (by simp)

/-- Witness for C8: a successful alias load, then a second lookup under an
oracle in which every source would fail. -/
theorem c8_witness :
    (loadModel cfgD wAliasOk initState).result = .ok (some ⟨1⟩) ∧
    loadModel cfgD wAllFail (loadModel cfgD wAliasOk initState).state =
      ⟨.ok (some ⟨1⟩), (loadModel cfgD wAliasOk initState).state, [], false⟩ :=
  ⟨rfl, c8_idempotent_cache cfgD wAliasOk wAllFail initState ⟨1⟩ rfl⟩

/-- Claim C10: in every reachable state the errors dict has exactly the keys
alias and stage (in that order), and the errors recorded by load_model never
depend on the local-file source's outcome — a local failure is never
recorded under any key. -/
theorem c10_errors_keys :
    (∀ (cfg : Config) (s : LMState), Reachable cfg s →
      s.info.errors.map Prod.fst = ["alias", "stage"]) ∧
    (∀ (cfg : Config) (w : World) (s : LMState) (b : Bool)
        (l : Except String Predictor),
      (loadModel cfg { w with localExists := b, localLoad := l } s).state.info.errors =
        (loadModel cfg w s).state.info.errors) := by
  constructor
  · exact fun cfg s h => (reachable_inv cfg s h).2
  · intro cfg w s b l
    obtain ⟨mo, info⟩ := s
    cases mo with
    | some m => rfl
    | none =>
      obtain ⟨al, av, sl, sv, le, ll⟩ := w
      by_cases hal : cfg.MODEL_ALIAS = "" <;>
        by_cases hst : cfg.MODEL_STAGE = "" <;>
          cases al <;> cases av <;> cases sl <;> cases sv <;>
            cases le <;> cases b <;> cases ll <;> cases l <;>
              simp [loadModel, stagePhase, hal, hst, setErr]

/-- Witness for C10 at the state reached by a failed resolution, with the
independence part instantiated at a corrupt local artifact. -/
theorem c10_witness :
    (loadModel cfgD wAllFail initState).state.info.errors.map Prod.fst =
      ["alias", "stage"] ∧
    (loadModel cfgD { wAllFail with localExists := true, localLoad := .error "corrupt artifact" } initState).state.info.errors =
      (loadModel cfgD wAllFail initState).state.info.errors :=
  ⟨c10_errors_keys.1 cfgD _ (Reachable.loadStep wAllFail Reachable.init),
   c10_errors_keys.2 cfgD wAllFail initState true (.error "corrupt artifact")⟩

/-- Claim C3: whenever predict returns a response (success, bad input, or
model unavailable), the request counter is incremented exactly once with
labels (POST, /predict, status of that response) and the latency histogram
records exactly one observation for /predict. -/
theorem c3_metrics_once (cfg : Config) (w : PredictWorld) (p : Payload)
    (s : LMState) (resp : PredictResponse)
    (h : (predict cfg w p s).result = .ok resp) :
    (predict cfg w p s).counts = [("POST", "/predict", statusOf resp)] ∧
    (predict cfg w p s).observations = ["/predict"] := by
  rcases hld : (loadModel cfg w.lw s).result with e | om
  · simp [predict, hld] at h
  · rcases om with _ | m
    · simp only [predict, hld] at h
      obtain rfl := Except.ok.inj h
      exact ⟨by simp [predict, hld, statusOf], by simp [predict, hld]⟩
    · rcases hsc : w.score with e | q
      · simp only [predict, hld, hsc] at h
        obtain rfl := Except.ok.inj h
        exact ⟨by simp [predict, hld, hsc, statusOf], by simp [predict, hld, hsc]⟩
      · simp only [predict, hld, hsc] at h
        obtain rfl := Except.ok.inj h
        exact ⟨by simp [predict, hld, hsc, statusOf], by simp [predict, hld, hsc]⟩

/-- Witness for C3 on the bad-input branch: the counter records one 400. -/
theorem c3_witness :
    (predict cfgD pwBad [] initState).counts =
      [("POST", "/predict", statusOf (.badInput "missing features"))] ∧
    (predict cfgD pwBad [] initState).observations = ["/predict"] :=
  c3_metrics_once cfgD pwBad [] initState (.badInput "missing features") rfl

/-- Claim C4: on a successfully scored predict request, a failing database
append changes neither the response (status and body) nor its content — the
logging error is swallowed. -/
theorem c4_logging_isolated (cfg : Config) (w : PredictWorld) (p : Payload)
    (s : LMState) (m : Predictor) (q : ℚ)
    (hload : (loadModel cfg w.lw s).result = .ok (some m))
    (hscore : w.score = .ok q) :
    (predict cfg { w with dbFails := true } p s).result =
      (predict cfg { w with dbFails := false } p s).result ∧
    (predict cfg { w with dbFails := true } p s).result =
      .ok (.ok q (if (1 : ℚ)/2 ≤ q then 1 else 0)
        (loadModel cfg w.lw s).state.info.version) := by
  obtain ⟨lw, sc, de, df⟩ := w
  simp only at hload hscore
  subst hscore
  exact ⟨by simp [predict, hload], by simp [predict, hload]⟩

/-- Witness for C4: concrete request scored at 3/4 with the sink failing. -/
theorem c4_witness :
    (predict cfgD { pwOk with dbFails := true } [] initState).result =
      (predict cfgD { pwOk with dbFails := false } [] initState).result :=
  (c4_logging_isolated cfgD pwOk [] initState ⟨1⟩ (3/4) rfl rfl).1

/-- Claim C5: reload always clears the cache and runs exactly one fresh
resolution before returning, independently of the previously cached state;
when that resolution fails, the failure payload carries the final binding
info (with its accumulated errors) and the cache stays empty. -/
theorem c5_reload_eager (cfg : Config) (w : World) (s : LMState) :
    (reloadModel cfg w s).resolveCount = 1 ∧
    reloadModel cfg w s = reloadModel cfg w initState ∧
    (∀ code msg info, (reloadModel cfg w s).response = .failure code msg info →
      info = (reloadModel cfg w s).state.info ∧
      (reloadModel cfg w s).state.model = none) := by
  have hres := loadModel_resolved cfg w initState rfl
  have hrs := loadModel_resultState cfg w initState
  refine ⟨?_, rfl, ?_⟩
  · unfold reloadModel
    rcases (loadModel cfg w initState).result with e | om
    · simp [hres]
    · rcases om with _ | m <;> simp [hres]
  · intro code msg info hresp
    rw [reload_state]
    rcases hld : (loadModel cfg w initState).result with e | om
    · simp only [reloadModel, hld] at hresp
      rcases hrs with hok | ⟨e', _, hmod⟩
      · rw [hld] at hok
        exact absurd hok (by simp)
      · exact ⟨(ReloadResponse.failure.inj hresp).2.2.symm ▸ rfl, hmod⟩
    · rcases om with _ | m
      · simp only [reloadModel, hld] at hresp
        have hmod : (loadModel cfg w initState).state.model = none := by
          rcases hrs with hok | ⟨e', he', hmod⟩
          · rw [hld] at hok
            exact (Except.ok.inj hok).symm
          · rw [hld] at he'
            exact absurd he' (by simp)
        exact ⟨(ReloadResponse.failure.inj hresp).2.2.symm ▸ rfl, hmod⟩
      · simp only [reloadModel, hld] at hresp
        exact absurd hresp (by simp)

/-- Witness for C5: reload from a state with a cached predictor, under an
oracle where every source fails; the failure payload carries the info and
the cache ends empty. -/
theorem c5_witness :
    (reloadModel cfgD wAllFail (loadModel cfgD wAliasOk initState).state).resolveCount = 1 ∧
    (reloadModel cfgD wAllFail (loadModel cfgD wAliasOk initState).state).state.model = none :=
  ⟨(c5_reload_eager cfgD wAllFail (loadModel cfgD wAliasOk initState).state).1,
   ((c5_reload_eager cfgD wAllFail (loadModel cfgD wAliasOk initState).state).2.2
      503 "Failed to load model"
      (reloadModel cfgD wAllFail (loadModel cfgD wAliasOk initState).state).state.info
      rfl).2⟩

/-- Claim C6: on a successfully scored predict request, the returned decision
is 1 exactly when the returned fraud probability is at least 1/2. -/
theorem c6_threshold (cfg : Config) (w : PredictWorld) (p : Payload)
    (s : LMState) (q : ℚ) (d : Nat) (v : Option String)
    (h : (predict cfg w p s).result = .ok (.ok q d v)) :
    d = 1 ↔ (1 : ℚ)/2 ≤ q := by
  rcases hld : (loadModel cfg w.lw s).result with e | om
  · simp [predict, hld] at h
  · rcases om with _ | m
    · simp [predict, hld] at h
    · rcases hsc : w.score with e | q'
      · simp [predict, hld, hsc] at h
      · simp only [predict, hld, hsc, Except.ok.injEq, PredictResponse.ok.injEq] at h
        obtain ⟨rfl, hd, rfl⟩ := h
        subst hd
        by_cases hq : (1 : ℚ)/2 ≤ q' <;> simp [hq]

/-- Witness for C6 at probability 3/4: the decision is 1. -/
theorem c6_witness :
    ((1 : Nat) = 1 ↔ (1 : ℚ)/2 ≤ 3/4) :=
  c6_threshold cfgD pwOk [] initState (3/4) 1 (some "7") (by
    have hld : (loadModel cfgD pwOk.lw initState).result = .ok (some ⟨1⟩) := rfl
    have hv : (loadModel cfgD pwOk.lw initState).state.info.version = some "7" := rfl
    have hsc : pwOk.score = .ok ((3 : ℚ)/4) := rfl
    simp only [predict, hld, hsc, hv]
    norm_num)

/-- Claim C7 as stated is false: with alias and stage failing and the local
artifact present but failing to load, the joblib exception escapes predict —
the handler does not return the 503 model-not-available response. -/
theorem c7_counterexample :
    (predict cfgD pwCorrupt [] initState).result = .error "corrupt artifact" ∧
    ¬ (predict cfgD pwCorrupt [] initState).result = .ok .unavailable := by
  refine ⟨rfl, fun h => ?_⟩
  rw [show (predict cfgD pwCorrupt [] initState).result =
      .error "corrupt artifact" from rfl] at h
  exact Except.noConfusion h

/-- Claim C7, amended: when every configured registry source fails and the
local artifact is absent, predict returns the 503 model-not-available
response, records it once in the counter, and terminates. -/
theorem c7_amended (cfg : Config) (w : PredictWorld) (p : Payload)
    (s : LMState) (hm : s.model = none)
    (ha : cfg.MODEL_ALIAS ≠ "" → ∃ e, w.lw.aliasLoad = .error e)
    (hs : cfg.MODEL_STAGE ≠ "" → ∃ e, w.lw.stageLoad = .error e)
    (hl : w.lw.localExists = false) :
    (predict cfg w p s).result = .ok .unavailable ∧
    (predict cfg w p s).counts = [("POST", "/predict", 503)] := by
  have hload : (loadModel cfg w.lw s).result = .ok none := by
    obtain ⟨mo, info⟩ := s
    cases hm
    by_cases hal : cfg.MODEL_ALIAS = ""
    · by_cases hst : cfg.MODEL_STAGE = ""
      · simp [loadModel, stagePhase, hal, hst]
      · obtain ⟨e, he⟩ := hs hst
        simp [loadModel, stagePhase, hal, hst, he, hl]
    · obtain ⟨e, he⟩ := ha hal
      by_cases hst : cfg.MODEL_STAGE = ""
      · simp [loadModel, stagePhase, hal, hst, he]
      · obtain ⟨e2, he2⟩ := hs hst
        simp [loadModel, stagePhase, hal, hst, he, he2, hl]
  exact ⟨by simp [predict, hload], by simp [predict, hload]⟩

/-- Witness for the amended C7: registry down, local artifact absent. -/
theorem c7_witness :
    (predict cfgD pwAllFail [] initState).result = .ok .unavailable ∧
    (predict cfgD pwAllFail [] initState).counts = [("POST", "/predict", 503)] :=
  c7_amended cfgD pwAllFail [] initState rfl
    (fun _ => ⟨"alias down", rfl⟩) (fun _ => ⟨"stage down", rfl⟩) rfl

/-- Claim C9: in every resolution where an earlier source fails and a later
source succeeds, the binding update of the successful source leaves the
errors mapping exactly as accumulated by the failures: a stage success keeps
the alias error; a local success keeps both the alias and the stage errors;
and with the alias pointer unset, a local success keeps the stage error. -/
theorem c9_errors_retained (cfg : Config) (w : World) (s : LMState)
    (hm : s.model = none) :
    (∀ e m, cfg.MODEL_ALIAS ≠ "" → w.aliasLoad = .error e →
        cfg.MODEL_STAGE ≠ "" → w.stageLoad = .ok m →
      (loadModel cfg w s).state.info.errors =
        setKey "alias" (some e) s.info.errors) ∧
    (∀ e1 e2 m, cfg.MODEL_ALIAS ≠ "" → w.aliasLoad = .error e1 →
        cfg.MODEL_STAGE ≠ "" → w.stageLoad = .error e2 →
        w.localExists = true → w.localLoad = .ok m →
      (loadModel cfg w s).state.info.errors =
        setKey "stage" (some e2) (setKey "alias" (some e1) s.info.errors)) ∧
    (∀ e2 m, cfg.MODEL_ALIAS = "" → cfg.MODEL_STAGE ≠ "" →
        w.stageLoad = .error e2 →
        w.localExists = true → w.localLoad = .ok m →
      (loadModel cfg w s).state.info.errors =
        setKey "stage" (some e2) s.info.errors) := by
  obtain ⟨mo, info⟩ := s
  cases hm
  refine ⟨?_, ?_, ?_⟩
  · intro e m hal he hst hsm
    cases hv : w.stageVersion <;>
      simp [loadModel, stagePhase, hal, hst, he, hsm, hv, setErr]
  · intro e1 e2 m hal he1 hst he2 hle hll
    simp [loadModel, stagePhase, hal, hst, he1, he2, hle, hll, setErr]
  · intro e2 m hal hst he2 hle hll
    simp [loadModel, stagePhase, hal, hst, he2, hle, hll, setErr]

/-- Witness for C9: a stage success after an alias failure keeps the alias
error in the errors dict. -/
theorem c9_witness :
    (loadModel cfgD wStageOk initState).state.info.errors =
      setKey "alias" (some "alias down") initState.info.errors :=
  (c9_errors_retained cfgD wStageOk initState rfl).1
    "alias down" ⟨2⟩ (by decide) rfl (by decide) rfl

end CreditFraud
